import Mathlib

/-!
Verification of the SimpleRecorder application (simplerecorder.py).

The file shallowly embeds the program's logic: the ffmpeg stderr
device-list parser, channel-count inference from a device name, the
settings loader, the channel-list recomputation, and the recording
controller (start/stop with its command-line builder).  Strings are
modelled as Lean strings / lists of characters; the two places where the
program touches the outside world (running ffmpeg for device
enumeration, spawning the recording process) are modelled by passing the
external result in (an `Option` of captured stderr lines) and by
returning the list of spawned command lines out.
-/

namespace SimpleRecorder

/-- ASCII whitespace as recognised by Python's `str.strip` / `\s`
(space, tab, newline, carriage return, vertical tab, form feed). -/
def pyIsSpace (c : Char) : Bool :=
  c == ' ' || c == '\t' || c == '\n' || c == '\r' || c == '\x0b' || c == '\x0c'

/-- Python `str.strip()` on a list of characters. -/
def pyStripL (l : List Char) : List Char :=
  ((l.dropWhile pyIsSpace).reverse.dropWhile pyIsSpace).reverse

/-- Python `str.strip()` on a string. -/
def pyStripS (s : String) : String :=
  String.mk (pyStripL s.toList)

/-- Numeric value of an ASCII digit character. -/
def digitVal (c : Char) : Nat :=
  c.toNat - 48

/-- Does `needle` occur at the head of the second list? -/
def startsWithL : List Char → List Char → Bool
  | [], _ => true
  | _ :: _, [] => false
  | a :: as, b :: bs => a == b && startsWithL as bs

/-- Python's substring containment test (`needle in haystack`). -/
def containsSub (needle : List Char) : List Char → Bool
  | [] => startsWithL needle []
  | c :: rest => startsWithL needle (c :: rest) || containsSub needle rest

/-- Continuation of Python `int(...)` digit parsing: after at least one
digit has been read into `acc`, accept further digits, with single
underscores allowed between digits (CPython's base-10 grammar). -/
def pyIntGo : Nat → List Char → Option Nat
  | acc, [] => some acc
  | acc, '_' :: c :: rest =>
      if c.isDigit then pyIntGo (acc * 10 + digitVal c) rest else none
  | acc, c :: rest =>
      if c.isDigit then pyIntGo (acc * 10 + digitVal c) rest else none

/-- The digit part of Python `int(...)`: one leading digit, then
`pyIntGo`. -/
def pyIntDigits : List Char → Option Nat
  | [] => none
  | c :: rest => if c.isDigit then pyIntGo (digitVal c) rest else none

/-- Python `int(s)` in base 10: surrounding whitespace stripped, an
optional sign, then digits (underscore separators allowed); `none`
models the `ValueError`. -/
def parsePyInt (s : String) : Option Int :=
  match pyStripL s.toList with
  | '+' :: rest => (pyIntDigits rest).map (fun n => (n : Int))
  | '-' :: rest => (pyIntDigits rest).map (fun n => -(n : Int))
  | l => (pyIntDigits l).map (fun n => (n : Int))

/-- Digit run to number (used for the regex capture groups). -/
def natOfDigits (l : List Char) : Nat :=
  l.foldl (fun a c => a * 10 + digitVal c) 0

/-! ### Channel inference (`infer_channel_count`)

`re.search(r'(\d+)ch', device_name.lower())`: the leftmost position
starting a digit run whose maximal extent is immediately followed by
`ch`; the captured group is that digit run. -/

/-- Leftmost digit run immediately followed by `ch`, as found by
`re.search(r'(\d+)ch', ...)`; the input is the already-lowercased
character list. -/
def findChNum : List Char → Option Nat
  | [] => none
  | c :: rest =>
      if c.isDigit && startsWithL ['c', 'h'] (rest.dropWhile Char.isDigit) then
        some (natOfDigits (c :: rest.takeWhile Char.isDigit))
      else
        findChNum rest

/-- `infer_channel_count` from simplerecorder.py: guess the channel
count from patterns like `16ch` in the lowercased name, defaulting
to 2. -/
def infer_channel_count (device_name : String) : Nat :=
  match findChNum (device_name.toList.map Char.toLower) with
  | some n => n
  | none => 2

/-- Whether the (lowercased) character list contains a digit run
immediately followed by `ch` anywhere — the condition under which
`re.search(r'(\d+)ch', ...)` succeeds. -/
def hasChPat : List Char → Bool
  | [] => false
  | c :: rest =>
      (c.isDigit && startsWithL ['c', 'h'] (rest.dropWhile Char.isDigit))
        || hasChPat rest

/-! ### Device-list parsing (`get_avfoundation_audio_devices`)

The stderr line regex is
`^\[AVFoundation [^]]+ @.*\]\s+\[(\d+)\]\s+(.+)$`, applied with
`re.match` to each stripped line.  The matcher below reproduces the
backtracking semantics: `[^]]+ @` may split at any ` @` preceded only by
non-`]` characters (all such splits leave the same candidate positions
for the closing `]`, so the first one is taken), the greedy `.*]` picks
the last `]` whose tail matches `\s+\[(\d+)\]\s+(.+)$`, and the greedy
`\s+(.+)$` gives up at most one trailing whitespace character to make
the final group non-empty. -/

/-- Match `\s+\[(\d+)\]\s+(.+)$` against the tail after the first
bracketed part; returns the two capture groups. -/
def tailMatch (l : List Char) : Option (List Char × List Char) :=
  let ws := l.takeWhile pyIsSpace
  let r1 := l.dropWhile pyIsSpace
  if ws.isEmpty then none else
  match r1 with
  | '[' :: r2 =>
    let ds := r2.takeWhile Char.isDigit
    let r3 := r2.dropWhile Char.isDigit
    if ds.isEmpty then none else
    match r3 with
    | ']' :: r4 =>
      let ws2 := r4.takeWhile pyIsSpace
      let r5 := r4.dropWhile pyIsSpace
      if ws2.isEmpty then none
      else if r5.isEmpty then
        -- everything after the second `]` is whitespace: the greedy
        -- `\s+` backtracks one character so that `(.+)` is non-empty
        if 2 ≤ ws2.length then some (ds, [(ws2.getLast?).getD ' ']) else none
      else some (ds, r5)
    | _ => none
  | _ => none

/-- Greedy `.*]`: try the last `]` first, matching `tailMatch` on what
follows it. -/
def lastBracketMatch : List Char → Option (List Char × List Char)
  | [] => none
  | ']' :: rest =>
      (match lastBracketMatch rest with
       | some r => some r
       | none => tailMatch rest)
  | _ :: rest => lastBracketMatch rest

/-- Find ` @` at some position ≥ 1 from the original start, with only
non-`]` characters before it; scanning from the second character on. -/
def ampAux : List Char → Option (List Char)
  | ' ' :: '@' :: rest => some rest
  | ']' :: _ => none
  | _ :: rest => ampAux rest
  | [] => none

/-- `[^]]+ @`: at least one non-`]` character, then ` @`; returns the
remainder. -/
def ampSplit : List Char → Option (List Char)
  | [] => none
  | ']' :: _ => none
  | _ :: rest => ampAux rest

/-- `re.match` of the device-line regex against one (stripped) line;
returns the `(index digits, name)` capture groups. -/
def matchDeviceLine (l : List Char) : Option (List Char × List Char) :=
  if startsWithL ("[AVFoundation ".toList) l then
    match ampSplit (l.drop 14) with
    | some b => lastBracketMatch b
    | none => none
  else none

/-- The audio-section start marker. -/
def audioMarker : List Char := "AVFoundation audio devices:".toList

/-- The audio-section end marker. -/
def videoMarker : List Char := "AVFoundation video devices:".toList

/-- The line loop of `get_avfoundation_audio_devices`: each line is
stripped; the audio marker switches capture on, the video marker
switches it off, and while on, regex-matching lines contribute their
capture groups. -/
def parseLines : Bool → List (List Char) → List (List Char × List Char)
  | _, [] => []
  | sec, l :: rest =>
      if containsSub audioMarker (pyStripL l) then parseLines true rest
      else if containsSub videoMarker (pyStripL l) then parseLines false rest
      else if sec then
        match matchDeviceLine (pyStripL l) with
        | some p => p :: parseLines true rest
        | none => parseLines true rest
      else parseLines false rest

/-- `get_avfoundation_audio_devices`: `none` models the launch of
ffmpeg raising (the `except` branch returns `[]`); `some lines` models
a successful launch whose captured stderr splits into `lines`. -/
def get_avfoundation_audio_devices (launch : Option (List String)) :
    List (String × String) :=
  match launch with
  | none => []
  | some lines =>
      (parseLines false (lines.map String.toList)).map
        (fun p => (String.mk p.1, String.mk p.2))

/-- The device list the application ends up with (`__init__`): the
enumerated devices, or the synthetic placeholder when enumeration came
back empty. -/
def initAudioDevices (launch : Option (List String)) : List (String × String) :=
  let devs := get_avfoundation_audio_devices launch
  if devs.isEmpty then [("0", "Default Device (not found by FFmpeg)")] else devs

/-! ### Application state

The tkinter variables and widgets that carry program state are modelled
as record fields: the device combobox (item list plus current index),
the entry/radio variables, the channel dropdown value lists, and the
`record_process` handle.  A process handle only matters through
`poll() is None` (still running), modelled by the `alive` flag, and
through the command it was spawned with. -/

/-- A spawned subprocess handle: `alive` models `poll() is None`. -/
structure Proc where
  alive : Bool
  cmd : List String
deriving DecidableEq, Repr

/-- The mutable state of the `SimpleRecorder` window. -/
structure AppState where
  audio_devices : List (String × String)
  device_sel : Nat
  total_channels : String
  stream_index : Int
  file_name : String
  dest_path : String
  record_mode : String
  mono_channel : Int
  stereo_pair : String
  mono_values : List Int
  stereo_values : List String
  record_process : Option Proc
deriving DecidableEq, Repr

/-- A log event: severity plus message (`log_message`). -/
inductive LogSeverity
  | info
  | warning
  | error
deriving DecidableEq, Repr

/-- `self.device_combo.get()`: the displayed text of the selected item,
which the constructor formats as `"{idx}: {name}"`. -/
def comboText (st : AppState) : String :=
  match st.audio_devices.get? st.device_sel with
  | some p => p.1 ++ ": " ++ p.2
  | none => ""

/-- Everything after the first colon (`split(":", 1)[-1]` when a colon
is present). -/
def afterFirstColon : List Char → List Char
  | [] => []
  | ':' :: rest => rest
  | _ :: rest => afterFirstColon rest

/-- Everything before the first colon (`split(":", 1)[0]`). -/
def beforeFirstColon : List Char → List Char
  | [] => []
  | ':' :: _ => []
  | c :: rest => c :: beforeFirstColon rest

/-- The device-name part of the combobox text, as computed at the top
of `update_channel_lists`. -/
def namePart (st : AppState) : String :=
  let t := (comboText st).toList
  if containsSub [':'] t then String.mk (pyStripL (afterFirstColon t))
  else String.mk (pyStripL t)

/-- The device index extracted in `start_recording`
(`split(":", 1)[0].strip()`; the surrounding `try` is unreachable since
neither `split` nor `strip` can raise). -/
def deviceIndexOf (st : AppState) : String :=
  String.mk (pyStripL (beforeFirstColon (comboText st).toList))

/-- The channel count inferred from the selected device's name. -/
def inferredOf (st : AppState) : Nat :=
  infer_channel_count (namePart st)

/-- `list(range(1, total + 1))` over Python ints. -/
def rangeList (t : Int) : List Int :=
  (List.range t.toNat).map (fun k => ((k + 1 : Nat) : Int))

/-- The stereo pair strings built by
`for i in range(1, total, 2): if i + 1 <= total: append(f"{i}-{i+1}")`
(the inner test never fails inside the range). -/
def stereoPairsList (t : Int) : List String :=
  (List.range (((t - 1).toNat + 1) / 2)).map
    (fun k => toString (2 * k + 1) ++ "-" ++ toString (2 * k + 2))

/-- The total-channels text after the empty-field seeding step of
`update_channel_lists`: an all-whitespace field is replaced by the
inferred count, anything else kept. -/
def effectiveTotalChannelsText (st : AppState) : String :=
  if (pyStripL st.total_channels.toList).isEmpty then toString (inferredOf st)
  else st.total_channels

/-- The `total` used by `update_channel_lists`: `int(field)` with the
inferred count substituted on `ValueError`. -/
def computedTotalOf (st : AppState) : Int :=
  match parsePyInt (effectiveTotalChannelsText st) with
  | some n => n
  | none => (inferredOf st : Int)

/-- `update_channel_lists`: recompute both dropdown value lists from
the effective total-channel count and clamp the current selections to
them. -/
def update_channel_lists (st : AppState) : AppState :=
  let total := computedTotalOf st
  let monoVals := rangeList total
  let monoSel :=
    if st.mono_channel ∈ monoVals then st.mono_channel
    else match monoVals with
      | x :: _ => x
      | [] => 1
  let sv0 := stereoPairsList total
  let sv := if sv0.isEmpty then ["1-2"] else sv0
  let stereoSel :=
    if st.stereo_pair ∈ sv then st.stereo_pair
    else match sv with
      | x :: _ => x
      | [] => st.stereo_pair   -- unreachable: `sv` is never empty
  { st with total_channels := effectiveTotalChannelsText st,
            mono_values := monoVals, mono_channel := monoSel,
            stereo_values := sv, stereo_pair := stereoSel }

/-- The recognized keys of `defaultsettings.json`; `none` means the key
is absent from the document. -/
structure SettingsDoc where
  device_index : Option String := none
  stream_index : Option Int := none
  file_name : Option String := none
  destination_folder : Option String := none
  record_mode : Option String := none
  mono_channel : Option Int := none
  stereo_pair : Option String := none

/-- `load_default_settings` applied to a successfully parsed document:
each recognized key updates its variable; `device_index` selects the
first device with a matching index; `record_mode` is only applied for
the three known values. -/
def load_default_settings (st : AppState) (doc : SettingsDoc) : AppState :=
  let st :=
    match doc.device_index with
    | some d =>
        (match st.audio_devices.findIdx? (fun p => p.1 == d) with
         | some i => { st with device_sel := i }
         | none => st)
    | none => st
  let st := match doc.stream_index with
    | some v => { st with stream_index := v }
    | none => st
  let st := match doc.file_name with
    | some v => { st with file_name := v }
    | none => st
  let st := match doc.destination_folder with
    | some v => { st with dest_path := v }
    | none => st
  let st := match doc.record_mode with
    | some v =>
        if v == "mono" || v == "stereo" || v == "multichannel" then
          { st with record_mode := v }
        else st
    | none => st
  let st := match doc.mono_channel with
    | some v => { st with mono_channel := v }
    | none => st
  let st := match doc.stereo_pair with
    | some v => { st with stereo_pair := v }
    | none => st
  st

/-! ### Recording controller (`start_recording` / `stop_recording`)

`start_recording` is a pure function of the state plus the ambient
quantities the code reads from the environment: the timestamp string
(`datetime.now().strftime(...)`), the current working directory
(`os.getcwd()`), and — for the two messages that interpolate a caught
exception — the text that exception renders to.  It returns the new
state, the emitted log events in order, and the list of commands passed
to `subprocess.Popen` (empty when the guard rejects the call). -/

/-- The guard condition
`self.record_process and self.record_process.poll() is None`. -/
def isRecording (st : AppState) : Bool :=
  match st.record_process with
  | some p => p.alive
  | none => false

/-- The total channel count used by `start_recording`:
`int(field)` with 2 substituted on `ValueError`. -/
def startTotalChannels (s : String) : Int :=
  match parsePyInt s with
  | some n => n
  | none => 2

/-- The log events produced while resolving the total channel count in
`start_recording` (`tcErr` is the rendering of the caught
`ValueError`). -/
def totalChannelsLogs (st : AppState) (tcErr : String) :
    List (LogSeverity × String) :=
  match parsePyInt st.total_channels with
  | some _ => []
  | none => [(LogSeverity.error, "Error getting total channels: " ++ tcErr)]

/-- `os.path.join` for POSIX paths as used here (the application
targets macOS). -/
def pyPathJoin (a b : String) : String :=
  if b.toList.head? = some '/' then b
  else if a = "" then b
  else if a.toList.getLast? = some '/' then a ++ b
  else a ++ "/" ++ b

/-- The output file name: `"{timestamp}[_{stripped user name}].wav"`. -/
def outputFileName (st : AppState) (now_str : String) : String :=
  let fn := pyStripS st.file_name
  now_str ++ (if fn = "" then "" else "_" ++ fn) ++ ".wav"

/-- The full output path: stripped destination folder (or the working
directory when blank) joined with the file name. -/
def outputPathOf (st : AppState) (now_str cwd : String) : String :=
  let d := pyStripS st.dest_path
  pyPathJoin (if d = "" then cwd else d) (outputFileName st now_str)

/-- Python `pair.split("-")`. -/
def splitDash : List Char → List (List Char)
  | [] => [[]]
  | '-' :: rest => [] :: splitDash rest
  | c :: rest =>
      match splitDash rest with
      | part :: parts => (c :: part) :: parts
      | [] => [[c]]   -- unreachable: `splitDash` never returns `[]`

/-- `left_str, right_str = pair.split("-")` followed by `int(...)` on
both parts; `none` models any raised exception (wrong number of parts
or a failing conversion). -/
def stereoParse (pair : String) : Option (Int × Int) :=
  match splitDash pair.toList with
  | [l, r] =>
      (match parsePyInt (String.mk l), parsePyInt (String.mk r) with
       | some a, some b => some (a, b)
       | _, _ => none)
  | _ => none

/-- The command-line built before the mode-specific suffix: overwrite
and queue-size flags, the avfoundation input with the chosen device
index and total channel count, then the optional stream mapping. -/
def baseCmd (st : AppState) : List String :=
  ["ffmpeg", "-thread_queue_size", "512", "-y", "-f", "avfoundation",
   "-i", ":" ++ deviceIndexOf st,
   "-ac", toString (startTotalChannels st.total_channels)]
    ++ ["-map", "0:" ++ toString st.stream_index ++ "?"]

/-- The body of `start_recording` past the already-recording guard
(`stErr` renders the exception caught in the stereo branch). -/
def startBody (st : AppState) (now_str cwd tcErr stErr : String) :
    AppState × List (LogSeverity × String) × List (List String) :=
  let output_path := outputPathOf st now_str cwd
  let device_index := deviceIndexOf st
  let total := startTotalChannels st.total_channels
  let logs0 := totalChannelsLogs st tcErr
  let cmd0 := baseCmd st
  if st.record_mode = "mono" then
    let ch := st.mono_channel - 1
    let cmd := cmd0 ++ ["-af", "pan=mono|c0=c" ++ toString ch, "-ac", "1", output_path]
    let msg := "Recording MONO (channel " ++ toString (ch + 1) ++ ") on device :"
      ++ device_index ++ " stream " ++ toString st.stream_index ++ " -> " ++ output_path
    ({ st with record_process := some ⟨true, cmd⟩ },
     logs0 ++ [(LogSeverity.info, msg)], [cmd])
  else if st.record_mode = "stereo" then
    match stereoParse st.stereo_pair with
    | some (a, b) =>
      let left := a - 1
      let right := b - 1
      let cmd := cmd0 ++
        ["-af", "pan=stereo|c0=c" ++ toString left ++ "|c1=c" ++ toString right,
         "-ac", "2", output_path]
      let msg := "Recording STEREO (channels " ++ toString (left + 1) ++ "-"
        ++ toString (right + 1) ++ ") on device :" ++ device_index
        ++ " stream " ++ toString st.stream_index ++ " -> " ++ output_path
      ({ st with record_process := some ⟨true, cmd⟩ },
       logs0 ++ [(LogSeverity.info, msg)], [cmd])
    | none =>
      let cmd := cmd0 ++ [output_path]
      let msg := "Stereo fallback -> " ++ output_path ++ " (Error: " ++ stErr ++ ")"
      ({ st with record_process := some ⟨true, cmd⟩ },
       logs0 ++ [(LogSeverity.warning, msg)], [cmd])
  else
    let cmd := cmd0 ++ [output_path]
    let msg := "Recording MULTICHANNEL (all " ++ toString total
      ++ " channels) on device :" ++ device_index ++ " stream "
      ++ toString st.stream_index ++ " -> " ++ output_path
    ({ st with record_process := some ⟨true, cmd⟩ },
     logs0 ++ [(LogSeverity.info, msg)], [cmd])

/-- `start_recording`: reject when a live process handle exists,
otherwise build the command, log the status, and spawn. -/
def start_recording (st : AppState) (now_str cwd tcErr stErr : String) :
    AppState × List (LogSeverity × String) × List (List String) :=
  if isRecording st then
    (st, [(LogSeverity.warning, "Already recording.")], [])
  else
    startBody st now_str cwd tcErr stErr

/-- `stop_recording`: with a live handle, signal SIGINT, wait, clear
the handle (the returned flag records that the signal was sent);
otherwise warn and change nothing. -/
def stop_recording (st : AppState) :
    AppState × List (LogSeverity × String) × Bool :=
  if isRecording st then
    ({ st with record_process := none },
     [(LogSeverity.info, "Recording stopped.")], true)
  else
    (st, [(LogSeverity.warning, "Not currently recording.")], false)

/-- The argument vector described by the specification, in the amended
order: thread-queue-size hint, force-overwrite flag, input driver
selection, device index, input channel count, stream mapping with the
optional marker, then — when the mode yields one — the routing filter
with its output channel count, and the output path. -/
def specArgumentVector (deviceIndex : String) (streamIdx totalCh : Int)
    (routing : Option (String × String)) (path : String) : List String :=
  ["ffmpeg", "-thread_queue_size", "512", "-y", "-f", "avfoundation",
   "-i", ":" ++ deviceIndex, "-ac", toString totalCh,
   "-map", "0:" ++ toString streamIdx ++ "?"]
    ++ (match routing with
        | some (f, ac) => ["-af", f, "-ac", ac]
        | none => [])
    ++ [path]

/-- The routing filter and output channel count each mode produces:
mono and well-formed stereo yield a pan filter; multichannel and the
stereo fallback yield none. -/
def modeRouting (st : AppState) : Option (String × String) :=
  if st.record_mode = "mono" then
    some ("pan=mono|c0=c" ++ toString (st.mono_channel - 1), "1")
  else if st.record_mode = "stereo" then
    match stereoParse st.stereo_pair with
    | some (a, b) =>
        some ("pan=stereo|c0=c" ++ toString (a - 1) ++ "|c1=c" ++ toString (b - 1), "2")
    | none => none
  else none

/-! ### Concrete states used by the witnesses -/

/-- A concrete idle state: one 16-channel device, stereo mode. -/
def stBase : AppState :=
  { audio_devices := [("0", "BlackHole 16ch")], device_sel := 0,
    total_channels := "2", stream_index := 0, file_name := "",
    dest_path := "", record_mode := "stereo", mono_channel := 1,
    stereo_pair := "1-2", mono_values := [1, 2], stereo_values := ["1-2"],
    record_process := none }

/-- A live process handle. -/
def procLive : Proc := ⟨true, []⟩

/-- `stBase` while a recording is running. -/
def stLive : AppState := { stBase with record_process := some procLive }

/-! ### Claim theorems -/

/-- Claim C1: when a recording process handle exists and has not
exited, `start_recording` spawns no new process and returns the state
untouched (warning "Already recording."); and no call ever spawns more
than one process. -/
theorem claim_C1_start_guard :
    (∀ (st : AppState) (now cwd e1 e2 : String) (p : Proc),
      st.record_process = some p → p.alive = true →
      start_recording st now cwd e1 e2 =
        (st, [(LogSeverity.warning, "Already recording.")], [])) ∧
    (∀ (st : AppState) (now cwd e1 e2 : String),
      (start_recording st now cwd e1 e2).2.2.length ≤ 1) := by
  constructor
  · intro st now cwd e1 e2 p hp halive
    have hrec : isRecording st = true := by simp [isRecording, hp, halive]
    simp [start_recording, hrec]
  · intro st now cwd e1 e2
    unfold start_recording startBody
    split
    · simp
    · split
      · simp
      · split
        · split <;> simp
        · simp

/-- Witness for C1 at a concrete recording state. -/
theorem claim_C1_witness :
    stLive.record_process = some procLive ∧ procLive.alive = true ∧
    start_recording stLive ("t") ("/c") ("") ("") =
      (stLive, [(LogSeverity.warning, "Already recording.")], []) :=
  ⟨rfl, rfl, claim_C1_start_guard.1 stLive ("t") ("/c") ("") ("") procLive rfl rfl⟩

/-- Claim C7: with no active, still-running process handle,
`stop_recording` reports "Not currently recording.", sends no signal,
and leaves the state unchanged. -/
theorem claim_C7_stop_noop :
    ∀ st : AppState, isRecording st = false →
      stop_recording st =
        (st, [(LogSeverity.warning, "Not currently recording.")], false) := by
  intro st h
  simp [stop_recording, h]

/-- Witness for C7 at a concrete idle state. -/
theorem claim_C7_witness :
    isRecording stBase = false ∧
    stop_recording stBase =
      (stBase, [(LogSeverity.warning, "Not currently recording.")], false) :=
  ⟨rfl, claim_C7_stop_noop stBase rfl⟩

/-- Claim C8: a failed launch of the enumeration tool yields the empty
device list rather than an error, and whenever the enumerated list is
empty the application substitutes the single synthetic placeholder
device, so the final list is never empty. -/
theorem claim_C8_enumeration_fallback :
    get_avfoundation_audio_devices none = [] ∧
    (∀ launch, get_avfoundation_audio_devices launch = [] →
      initAudioDevices launch = [("0", "Default Device (not found by FFmpeg)")]) ∧
    (∀ launch, initAudioDevices launch ≠ []) := by
  refine ⟨rfl, ?_, ?_⟩
  · intro launch h
    simp [initAudioDevices, h]
  · intro launch
    simp only [initAudioDevices]
    split
    · simp
    · rename_i h
      simpa [List.isEmpty_iff] using h

/-- Witness for C8 at the failed-launch input. -/
theorem claim_C8_witness :
    get_avfoundation_audio_devices none = [] ∧
    initAudioDevices none = [("0", "Default Device (not found by FFmpeg)")] :=
  ⟨rfl, claim_C8_enumeration_fallback.2.1 none rfl⟩

/-- When the lowercased name contains no digit run followed by `ch`,
the regex search fails. -/
theorem findChNum_eq_none {l : List Char} (h : hasChPat l = false) :
    findChNum l = none := by
  induction l with
  | nil => rfl
  | cons c rest ih =>
      rw [hasChPat, Bool.or_eq_false_iff] at h
      rw [findChNum, if_neg (by simp [h.1]), ih h.2]

/-- Claim C3: channel inference finds a numeral immediately followed by
`ch` case-insensitively, defaulting to 2 when the pattern is absent;
in particular on the three example names. -/
theorem claim_C3_channel_inference :
    infer_channel_count ("BlackHole 16ch") = 16 ∧
    infer_channel_count ("Audient EVO16") = 2 ∧
    infer_channel_count ("8CH Interface") = 8 ∧
    ∀ s : String, hasChPat (s.toList.map Char.toLower) = false →
      infer_channel_count s = 2 := by
  refine ⟨by decide, by decide, by decide, ?_⟩
  intro s h
  rw [infer_channel_count, findChNum_eq_none h]

/-- Witness for C3's default case at a concrete name. -/
theorem claim_C3_witness :
    hasChPat (("Audient EVO16").toList.map Char.toLower) = false ∧
    infer_channel_count ("Audient EVO16") = 2 :=
  ⟨by decide, claim_C3_channel_inference.2.2.2 ("Audient EVO16") (by decide)⟩

/-- Claim C5: a start in stereo mode with a pair parsing as `(a, b)`
routes source channel `a - 1` to output channel 0 and `b - 1` to
output channel 1, with output channel count flag 2. -/
theorem claim_C5_stereo_routing :
    ∀ (st : AppState) (now cwd e1 e2 : String) (a b : Int),
      isRecording st = false → st.record_mode = "stereo" →
      stereoParse st.stereo_pair = some (a, b) →
      (start_recording st now cwd e1 e2).2.2 =
        [baseCmd st ++
          ["-af",
           "pan=stereo|c0=c" ++ toString (a - 1) ++ "|c1=c" ++ toString (b - 1),
           "-ac", "2", outputPathOf st now cwd]] := by
  intro st now cwd e1 e2 a b hrec hmode hpair
  rw [start_recording, if_neg (by simp [hrec])]
  rw [startBody]
  rw [if_neg (by simp [hmode]), if_pos hmode, hpair]

/-- Witness for C5 at pair "3-4": source channel 2 goes to output 0 and
source channel 3 to output 1. -/
theorem claim_C5_witness :
    isRecording { stBase with stereo_pair := "3-4" } = false ∧
    stereoParse ("3-4") = some (3, 4) ∧
    (start_recording { stBase with stereo_pair := "3-4" }
        ("2025-01-01_00-00-00") ("/cwd") ("") ("")).2.2 =
      [["ffmpeg", "-thread_queue_size", "512", "-y", "-f", "avfoundation",
        "-i", ":0", "-ac", "2", "-map", "0:0?",
        "-af", "pan=stereo|c0=c2|c1=c3", "-ac", "2",
        "/cwd/2025-01-01_00-00-00.wav"]] := by
  refine ⟨by decide, by decide, ?_⟩
  rw [claim_C5_stereo_routing { stBase with stereo_pair := "3-4" }
    ("2025-01-01_00-00-00") ("/cwd") ("") ("") 3 4 (by decide) rfl (by decide)]
  decide

/-- Claim C6: a start in stereo mode whose pair string fails to parse
does not fail: it spawns the command with the raw output path appended,
no routing filter and no output-channel-count flag, and logs a
warning. -/
theorem claim_C6_stereo_fallback :
    ∀ (st : AppState) (now cwd e1 e2 : String),
      isRecording st = false → st.record_mode = "stereo" →
      stereoParse st.stereo_pair = none →
      start_recording st now cwd e1 e2 =
        ({ st with record_process := some (Proc.mk true (baseCmd st ++ [outputPathOf st now cwd])) },
         totalChannelsLogs st e1 ++
           [(LogSeverity.warning,
             "Stereo fallback -> " ++ outputPathOf st now cwd
               ++ " (Error: " ++ e2 ++ ")")],
         [baseCmd st ++ [outputPathOf st now cwd]]) := by
  intro st now cwd e1 e2 hrec hmode hpair
  rw [start_recording, if_neg (by simp [hrec])]
  rw [startBody]
  rw [if_neg (by simp [hmode]), if_pos hmode, hpair]

/-- The command spawned in the C6 witness scenario. -/
def fallbackCmdC6 : List String :=
  ["ffmpeg", "-thread_queue_size", "512", "-y", "-f", "avfoundation",
   "-i", ":0", "-ac", "2", "-map", "0:0?", "/c/t.wav"]

/-- Witness for C6 at the malformed pair "x-y". -/
theorem claim_C6_witness :
    isRecording { stBase with stereo_pair := "x-y" } = false ∧
    stereoParse ("x-y") = none ∧
    start_recording { stBase with stereo_pair := "x-y" }
        ("t") ("/c") ("") ("err") =
      ({ stBase with stereo_pair := "x-y", record_process := some (Proc.mk true fallbackCmdC6) },
       [(LogSeverity.warning, "Stereo fallback -> /c/t.wav (Error: err)")],
       [fallbackCmdC6]) := by
  refine ⟨by decide, by decide, ?_⟩
  rw [claim_C6_stereo_fallback { stBase with stereo_pair := "x-y" }
    ("t") ("/c") ("") ("err") (by decide) rfl (by decide)]
  decide

/-- Claim C4 counterexample: at a concrete start, the spawned argument
vector places the thread-queue-size hint before the force-overwrite
flag, so it differs from the vector the claim describes (which puts the
force-overwrite flag first). -/
theorem claim_C4_counterexample :
    (start_recording stBase ("2025-01-01_00-00-00") ("/cwd") ("") ("")).2.2 =
      [["ffmpeg", "-thread_queue_size", "512", "-y", "-f", "avfoundation",
        "-i", ":0", "-ac", "2", "-map", "0:0?",
        "-af", "pan=stereo|c0=c0|c1=c1", "-ac", "2",
        "/cwd/2025-01-01_00-00-00.wav"]] ∧
    (["ffmpeg", "-thread_queue_size", "512", "-y", "-f", "avfoundation",
      "-i", ":0", "-ac", "2", "-map", "0:0?",
      "-af", "pan=stereo|c0=c0|c1=c1", "-ac", "2",
      "/cwd/2025-01-01_00-00-00.wav"] : List String) ≠
    ["ffmpeg", "-y", "-thread_queue_size", "512", "-f", "avfoundation",
     "-i", ":0", "-ac", "2", "-map", "0:0?",
     "-af", "pan=stereo|c0=c0|c1=c1", "-ac", "2",
     "/cwd/2025-01-01_00-00-00.wav"] :=
  ⟨by decide, by decide⟩

/-- Claim C4 as amended: the argument vector is built in the order
thread-queue-size hint, force-overwrite flag, input driver, device
index, input channel count, stream mapping with optional marker, the
mode's routing filter and output channel count when the mode yields
one, and the output path. -/
theorem claim_C4_argument_order :
    ∀ (st : AppState) (now cwd e1 e2 : String),
      isRecording st = false →
      (start_recording st now cwd e1 e2).2.2 =
        [specArgumentVector (deviceIndexOf st) st.stream_index
          (startTotalChannels st.total_channels) (modeRouting st)
          (outputPathOf st now cwd)] := by
  intro st now cwd e1 e2 hrec
  rw [start_recording, if_neg (by simp [hrec])]
  rw [startBody]
  simp only [specArgumentVector, modeRouting]
  by_cases hm : st.record_mode = "mono"
  · rw [if_pos hm, if_pos hm]
    rfl
  · rw [if_neg hm, if_neg hm]
    by_cases hs : st.record_mode = "stereo"
    · rw [if_pos hs, if_pos hs]
      cases hpair : stereoParse st.stereo_pair with
      | none => rfl
      | some p => cases p with
        | mk a b => rfl
    · rw [if_neg hs, if_neg hs]
      rfl

/-- Witness for the amended C4 at a concrete idle state. -/
theorem claim_C4_witness :
    isRecording stBase = false ∧
    (start_recording stBase ("t") ("/c") ("") ("")).2.2 =
      [specArgumentVector (deviceIndexOf stBase) stBase.stream_index
        (startTotalChannels stBase.total_channels) (modeRouting stBase)
        (outputPathOf stBase ("t") ("/c"))] :=
  ⟨rfl, claim_C4_argument_order stBase ("t") ("/c") ("") ("") rfl⟩

/-- Membership in `list(range(1, total + 1))`. -/
theorem mem_rangeList {x t : Int} : x ∈ rangeList t ↔ 1 ≤ x ∧ x ≤ t := by
  unfold rangeList
  constructor
  · intro hx
    obtain ⟨k, hk, hxe⟩ := List.mem_map.1 hx
    rw [List.mem_range] at hk
    subst hxe
    omega
  · intro hx
    exact List.mem_map.2 ⟨(x - 1).toNat, List.mem_range.2 (by omega), by omega⟩

/-- The first element of `rangeList` (with the code's fallback for the
empty list) is always channel 1. -/
theorem rangeList_head (t : Int) :
    (match rangeList t with
     | x :: _ => x
     | [] => (1 : Int)) = 1 := by
  unfold rangeList
  cases ht : t.toNat with
  | zero => simp
  | succ n => rw [List.range_succ_eq_map]; simp

/-- A loaded `mono_channel` key lands unchanged in the state. -/
theorem load_mono_channel (st : AppState) (doc : SettingsDoc) (m : Int)
    (h : doc.mono_channel = some m) :
    (load_default_settings st doc).mono_channel = m := by
  rcases doc with ⟨di, si, fn, df, rm, mc, sp⟩
  simp only at h
  subst h
  simp only [load_default_settings]
  repeat' split <;> rfl

/-- Claim C9: after loading a settings document whose `mono_channel`
is outside `1..total` for the post-load total-channel count, the
channel-list recomputation clamps the mono selector to channel 1. -/
theorem claim_C9_mono_clamp :
    ∀ (st : AppState) (doc : SettingsDoc) (m : Int),
      doc.mono_channel = some m →
      (m < 1 ∨ computedTotalOf (load_default_settings st doc) < m) →
      (update_channel_lists (load_default_settings st doc)).mono_channel = 1 := by
  intro st doc m hdoc hout
  have hm : (load_default_settings st doc).mono_channel = m :=
    load_mono_channel st doc m hdoc
  simp only [update_channel_lists, hm]
  rw [if_neg (by rw [mem_rangeList]; omega)]
  exact rangeList_head _

/-- Witness for C9: loading `mono_channel = 99` against a 2-channel
total clamps to channel 1. -/
theorem claim_C9_witness :
    ({ mono_channel := some 99 } : SettingsDoc).mono_channel = some 99 ∧
    (99 < 1 ∨
      computedTotalOf (load_default_settings stBase { mono_channel := some 99 }) < 99) ∧
    (update_channel_lists
        (load_default_settings stBase { mono_channel := some 99 })).mono_channel = 1 :=
  ⟨rfl, by decide,
   claim_C9_mono_clamp stBase { mono_channel := some 99 } 99 rfl (by decide)⟩

/-- Claim C10: when the total-channels field is non-empty but
unparseable, `update_channel_lists` computes the channel lists from the
count inferred from the device name, while `start_recording`'s parse
of the same field falls back to the constant 2; when the field is
empty, it is first populated with the inferred count. -/
theorem claim_C10_total_channels_fallbacks :
    ∀ st : AppState,
      ((pyStripL st.total_channels.toList).isEmpty = false →
        parsePyInt st.total_channels = none →
        (update_channel_lists st).mono_values = rangeList (inferredOf st : Int) ∧
        (update_channel_lists st).stereo_values =
          (if (stereoPairsList (inferredOf st : Int)).isEmpty then ["1-2"]
           else stereoPairsList (inferredOf st : Int)) ∧
        startTotalChannels st.total_channels = 2) ∧
      ((pyStripL st.total_channels.toList).isEmpty = true →
        (update_channel_lists st).total_channels = toString (inferredOf st)) := by
  intro st
  constructor
  · intro h1 h2
    have heff : effectiveTotalChannelsText st = st.total_channels := by
      rw [effectiveTotalChannelsText, if_neg (by rw [h1]; simp)]
    have htot : computedTotalOf st = (inferredOf st : Int) := by
      rw [computedTotalOf, heff, h2]
    refine ⟨?_, ?_, ?_⟩
    · simp only [update_channel_lists, htot]
    · simp only [update_channel_lists, htot]
    · rw [startTotalChannels, h2]
  · intro h
    have heff : effectiveTotalChannelsText st = toString (inferredOf st) := by
      rw [effectiveTotalChannelsText, if_pos h]
    simp only [update_channel_lists, heff]

/-- Witness for C10 at the unparseable field "abc" on a 16-channel
device: the dropdowns are computed for 16 channels while the start
operation would use 2. -/
theorem claim_C10_witness :
    (pyStripL (("abc") : String).toList).isEmpty = false ∧
    parsePyInt ("abc") = none ∧
    ((update_channel_lists { stBase with total_channels := "abc" }).mono_values =
        rangeList ((16 : Nat) : Int) ∧
      (update_channel_lists { stBase with total_channels := "abc" }).stereo_values =
        (if (stereoPairsList ((16 : Nat) : Int)).isEmpty then ["1-2"]
         else stereoPairsList ((16 : Nat) : Int)) ∧
      startTotalChannels ("abc") = 2) :=
  ⟨rfl, rfl,
   (claim_C10_total_channels_fallbacks { stBase with total_channels := "abc" }).1
     rfl rfl⟩

/-- With capture off, marker-free lines are skipped. -/
theorem parseLines_false_append (pre rest : List (List Char))
    (h : ∀ l ∈ pre, containsSub audioMarker (pyStripL l) = false ∧
      containsSub videoMarker (pyStripL l) = false) :
    parseLines false (pre ++ rest) = parseLines false rest := by
  induction pre with
  | nil => rfl
  | cons x xs ih =>
      obtain ⟨h1, h2⟩ := h x (List.mem_cons_self x xs)
      rw [List.cons_append, parseLines, if_neg (by rw [h1]; simp),
        if_neg (by rw [h2]; simp), if_neg (by simp)]
      exact ih (fun l hl => h l (List.mem_cons_of_mem _ hl))

/-- With capture on, marker-free lines contribute exactly their regex
capture groups, in order. -/
theorem parseLines_true_append (mid rest : List (List Char))
    (h : ∀ l ∈ mid, containsSub audioMarker (pyStripL l) = false ∧
      containsSub videoMarker (pyStripL l) = false) :
    parseLines true (mid ++ rest) =
      mid.filterMap (fun l => matchDeviceLine (pyStripL l))
        ++ parseLines true rest := by
  induction mid with
  | nil => rfl
  | cons x xs ih =>
      obtain ⟨h1, h2⟩ := h x (List.mem_cons_self x xs)
      rw [List.cons_append, parseLines, if_neg (by rw [h1]; simp),
        if_neg (by rw [h2]; simp), if_pos rfl, List.filterMap_cons]
      have ihx := ih (fun l hl => h l (List.mem_cons_of_mem _ hl))
      cases hm : matchDeviceLine (pyStripL x) with
      | none => rw [ihx]
      | some p => rw [ihx, List.cons_append]

/-- Claim C2: on a diagnostic text consisting of marker-free lines, the
audio marker, the audio section, the video marker, and the video
section, the parser returns exactly the capture groups of the
pattern-matching lines of the audio section, in source order, and
nothing from the other parts. -/
theorem claim_C2_section_parsing :
    ∀ (pre mid post : List String) (a v : String),
      (∀ l ∈ pre, containsSub audioMarker (pyStripL l.toList) = false ∧
        containsSub videoMarker (pyStripL l.toList) = false) →
      (∀ l ∈ mid, containsSub audioMarker (pyStripL l.toList) = false ∧
        containsSub videoMarker (pyStripL l.toList) = false) →
      (∀ l ∈ post, containsSub audioMarker (pyStripL l.toList) = false ∧
        containsSub videoMarker (pyStripL l.toList) = false) →
      containsSub audioMarker (pyStripL a.toList) = true →
      containsSub audioMarker (pyStripL v.toList) = false →
      containsSub videoMarker (pyStripL v.toList) = true →
      get_avfoundation_audio_devices (some (pre ++ a :: (mid ++ v :: post))) =
        ((mid.map String.toList).filterMap (fun l => matchDeviceLine (pyStripL l))).map
          (fun p => (String.mk p.1, String.mk p.2)) := by
  intro pre mid post a v hpre hmid hpost ha hva hv
  have transport (xs : List String)
      (hx : ∀ l ∈ xs, containsSub audioMarker (pyStripL l.toList) = false ∧
        containsSub videoMarker (pyStripL l.toList) = false) :
      ∀ l ∈ xs.map String.toList, containsSub audioMarker (pyStripL l) = false ∧
        containsSub videoMarker (pyStripL l) = false := by
    intro l hl
    obtain ⟨s, hs, rfl⟩ := List.mem_map.1 hl
    exact hx s hs
  rw [get_avfoundation_audio_devices]
  rw [List.map_append, List.map_cons, List.map_append, List.map_cons]
  rw [parseLines_false_append (pre.map String.toList) _ (transport pre hpre)]
  rw [parseLines, if_pos ha]
  rw [parseLines_true_append (mid.map String.toList) _ (transport mid hmid)]
  rw [parseLines, if_neg (by rw [hva]; simp), if_pos hv]
  rw [show post.map String.toList = post.map String.toList ++ [] by simp]
  rw [parseLines_false_append (post.map String.toList) [] (transport post hpost)]
  simp [parseLines]

/-- Witness for C2 on a small concrete diagnostic text. -/
theorem claim_C2_witness :
    (∀ l ∈ (["junk"] : List String),
      containsSub audioMarker (pyStripL l.toList) = false ∧
      containsSub videoMarker (pyStripL l.toList) = false) ∧
    (∀ l ∈ (["[AVFoundation indev @ 0x0] [0] RME Babyface", "no match here",
             "[AVFoundation indev @ 0x0] [1] BlackHole 16ch"] : List String),
      containsSub audioMarker (pyStripL l.toList) = false ∧
      containsSub videoMarker (pyStripL l.toList) = false) ∧
    (∀ l ∈ (["[AVFoundation indev @ 0x0] [0] FaceTime Camera"] : List String),
      containsSub audioMarker (pyStripL l.toList) = false ∧
      containsSub videoMarker (pyStripL l.toList) = false) ∧
    get_avfoundation_audio_devices (some
        (["junk"] ++ ("AVFoundation audio devices:") ::
          ((["[AVFoundation indev @ 0x0] [0] RME Babyface", "no match here",
             "[AVFoundation indev @ 0x0] [1] BlackHole 16ch"] : List String) ++
            ("AVFoundation video devices:") ::
              ["[AVFoundation indev @ 0x0] [0] FaceTime Camera"]))) =
      [("0", "RME Babyface"), ("1", "BlackHole 16ch")] := by
  refine ⟨by decide, by decide, by decide, ?_⟩
  rw [claim_C2_section_parsing (["junk"])
    (["[AVFoundation indev @ 0x0] [0] RME Babyface", "no match here",
      "[AVFoundation indev @ 0x0] [1] BlackHole 16ch"])
    (["[AVFoundation indev @ 0x0] [0] FaceTime Camera"])
    ("AVFoundation audio devices:") ("AVFoundation video devices:")
    (by decide) (by decide) (by decide) (by decide) (by decide) (by decide)]
  decide

end SimpleRecorder
